import Mathlib

/-!
Formal model of the login-test automation subsystem in
src/automated_testing.py: selector generation (generate_possible_selectors),
element resolution (find_element_with_ai), outcome classification
(determine_login_result), scenario execution (execute_login_test), batch
orchestration (test_login_scenarios) and report aggregation
(generate_test_report). Strings model Python strings; lowercasing is modelled
per character and the Python substring operator is modelled by an explicit
character-list search.
-/

namespace AutoTest

/-- Lowercasing of a string, modelling the Python lower call character by
character. -/
def to_lower (s : String) : String :=
  String.mk (s.toList.map Char.toLower)

/-- Substring search on character lists: true when the needle occurs as a
contiguous run inside the other list. -/
def contains_sub_chars (needle : List Char) : List Char → Bool
  | [] => needle.isEmpty
  | c :: rest => needle.isPrefixOf (c :: rest) || contains_sub_chars needle rest

/-- Substring containment, modelling the Python membership operator on
strings. -/
def contains_sub (haystack needle : String) : Bool :=
  contains_sub_chars needle.toList haystack.toList

/-- The five selector strings the loop body of generate_possible_selectors
appends for one attribute hint: a substring-match selector, an exact-match
selector, a tag-qualified substring selector, an id-style selector and a
class-style selector built from the role name. -/
def selectors_for_hint (element_type attr : String) : List String :=
  [ "[" ++ attr ++ "*=\"" ++ element_type ++ "\"]",
    "[" ++ attr ++ "=\"" ++ element_type ++ "\"]",
    "input[" ++ attr ++ "*=\"" ++ element_type ++ "\"]",
    "#" ++ element_type,
    "." ++ element_type ]

/-- Embedding of generate_possible_selectors: starting from the empty list, the
loop over the attribute hints extends the accumulated list with the five
selectors of the loop body, id-style and class-style entries included, once per
hint. -/
def generate_possible_selectors (element_type : String) (attributes : List String) :
    List String :=
  attributes.foldl (fun selectors attr => selectors ++ selectors_for_hint element_type attr) []

/-- Abstract element handle returned by the page. -/
structure Element where
  handle : Nat
deriving DecidableEq

/-- Abstract page state: which CSS selector resolves to which element (none
models a candidate whose bounded wait times out), plus the direct id and name
lookups used by the fallback path. -/
structure PageEnv where
  css_lookup : String → Option Element
  id_lookup : String → Option Element
  name_lookup : String → Option Element

/-- Linear scan of the candidate selectors with early exit on the first match,
recording the selectors actually probed: the loop over possible_selectors in
find_element_with_ai. -/
def scan_with_trace (env : PageEnv) : List String → List String × Option Element
  | [] => ([], none)
  | s :: rest =>
    match env.css_lookup s with
    | some e => ([s], some e)
    | none =>
      let r := scan_with_trace env rest
      (s :: r.1, r.2)

/-- Embedding of find_element_with_ai, additionally returning the list of CSS
candidates probed: scan the generated candidates in order with early exit; if
none matches, fall back to a direct id lookup on the role name, then a direct
name lookup on the role name; if both fail, fail with the could-not-locate
error carrying the role. -/
def resolve_element (env : PageEnv) (element_type : String) (attributes : List String) :
    List String × Except String Element :=
  let scanned := scan_with_trace env (generate_possible_selectors element_type attributes)
  (scanned.1,
    match scanned.2 with
    | some e => Except.ok e
    | none =>
      match env.id_lookup element_type with
      | some e => Except.ok e
      | none =>
        match env.name_lookup element_type with
        | some e => Except.ok e
        | none => Except.error ("Could not locate " ++ element_type ++ " element"))

/-- The find_element_with_ai outcome without the probe trace. -/
def find_element_with_ai (env : PageEnv) (element_type : String) (attributes : List String) :
    Except String Element :=
  (resolve_element env element_type attributes).2

/-- One pass of the indicator loops in determine_login_result: true when some
indicator in the list occurs in the lowered URL or in the lowered page
source. -/
def indicator_hit (indicators : List String) (url_lower source_lower : String) : Bool :=
  match indicators with
  | [] => false
  | ind :: rest =>
    if contains_sub url_lower ind || contains_sub source_lower ind then true
    else indicator_hit rest url_lower source_lower

/-- Embedding of determine_login_result with its embedded constant keyword
lists: success indicators are checked first against the lowered URL and page
source, then failure indicators; the default outcome is failure. -/
def determine_login_result (current_url page_source : String) : String :=
  let success_indicators : List String := ["dashboard", "welcome", "success", "home"]
  let failure_indicators : List String := ["error", "invalid", "failure", "login"]
  let source_lower := to_lower page_source
  if indicator_hit success_indicators (to_lower current_url) source_lower then "success"
  else if indicator_hit failure_indicators (to_lower current_url) source_lower then "failure"
  else "failure"

/-- Modelled from the spec: the outcome classifier as the specification demands
it, with the success and failure keyword sets received as caller-supplied
configuration instead of embedded constants, with the same decision structure
otherwise. -/
def classify_with_keywords (success_keywords failure_keywords : List String)
    (current_url page_source : String) : String :=
  let source_lower := to_lower page_source
  if indicator_hit success_keywords (to_lower current_url) source_lower then "success"
  else if indicator_hit failure_keywords (to_lower current_url) source_lower then "failure"
  else "failure"

/-- One scenario definition from the test_cases list. -/
structure TestCase where
  name : String
  username : String
  password : String
  expected_result : String
deriving DecidableEq

/-- One scenario result dictionary built by execute_login_test. The timestamp
entry of the Python dictionary records wall-clock time and is not modelled; the
error entry is present exactly on the error path. -/
structure ScenarioResult where
  test_case : String
  username : String
  expected : String
  actual : String
  status : String
  error : Option String
deriving DecidableEq

/-- Abstract browser state for one scenario execution: a possible navigation
failure, the page used for element resolution, a possible failure during the
clear, send_keys and click interactions, and the post-interaction URL and page
source read by the classifier. -/
structure BrowserEnv where
  nav_error : Option String
  page : PageEnv
  interact_error : Option String
  current_url : String
  page_source : String

/-- The try block of execute_login_test: navigate, resolve the username,
password and login elements with their attribute hint lists, interact, then
classify the outcome. The first failing step short-circuits with its error
message. -/
def run_login_steps (env : BrowserEnv) : Except String String :=
  match env.nav_error with
  | some msg => Except.error msg
  | none =>
    match find_element_with_ai env.page "username" ["id", "name", "placeholder"] with
    | Except.error msg => Except.error msg
    | Except.ok _ =>
      match find_element_with_ai env.page "password" ["id", "name", "type"] with
      | Except.error msg => Except.error msg
      | Except.ok _ =>
        match find_element_with_ai env.page "login" ["id", "class", "value"] with
        | Except.error msg => Except.error msg
        | Except.ok _ =>
          match env.interact_error with
          | some msg => Except.error msg
          | none => Except.ok (determine_login_result env.current_url env.page_source)

/-- Embedding of execute_login_test: every error raised inside the try block is
caught at the scenario boundary and converted into an ERROR result whose actual
entry is the sentinel error value; otherwise the result is PASS exactly when
the classified outcome equals the expected one. -/
def execute_login_test (env : BrowserEnv) (tc : TestCase) : ScenarioResult :=
  match run_login_steps env with
  | Except.ok actual_result =>
    { test_case := tc.name, username := tc.username, expected := tc.expected_result,
      actual := actual_result,
      status := if actual_result == tc.expected_result then "PASS" else "FAIL",
      error := none }
  | Except.error msg =>
    { test_case := tc.name, username := tc.username, expected := tc.expected_result,
      actual := "error", status := "ERROR", error := some msg }

/-- Failure of report aggregation on an empty result sequence. In the Python
code this surfaces as the unhandled exception raised while aggregating the
empty result frame (no status column to filter, and a zero total for the
rate); nothing catches it, so it propagates to the caller. -/
inductive EmptyRunError where
  | emptyRun
deriving DecidableEq

/-- The aggregate counters of generate_test_report. The success rate is kept as
an exact rational; display_rate below models the one-decimal rendering. -/
structure Report where
  total : Nat
  passed : Nat
  failed : Nat
  errored : Nat
  success_rate : ℚ
deriving DecidableEq

/-- One-decimal rounding applied to the success rate when the report is
rendered. -/
def display_rate (q : ℚ) : ℚ :=
  ((round (q * 10) : ℤ) : ℚ) / 10

/-- Embedding of generate_test_report: counts of PASS, FAIL and ERROR results
and the success rate passed over total times one hundred; on an empty input the
aggregation fails and the error is returned to the caller. -/
def generate_test_report (results : List ScenarioResult) : Except EmptyRunError Report :=
  if results.length = 0 then Except.error EmptyRunError.emptyRun
  else
    let total := results.length
    let passed := (results.filter fun r => r.status == "PASS").length
    let failed := (results.filter fun r => r.status == "FAIL").length
    let errored := (results.filter fun r => r.status == "ERROR").length
    Except.ok { total := total, passed := passed, failed := failed, errored := errored,
                success_rate := (passed : ℚ) / (total : ℚ) * 100 }

/-- The scenario loop of test_login_scenarios over an arbitrary scenario list:
execute each scenario in order, collect one result per scenario, then aggregate
the report. -/
def run_login_scenarios (env : BrowserEnv) (test_cases : List TestCase) :
    List ScenarioResult × Except EmptyRunError Report :=
  let results := test_cases.map (execute_login_test env)
  (results, generate_test_report results)

/-- The four hardcoded scenario definitions of test_login_scenarios. -/
def default_test_cases : List TestCase :=
  [ { name := "Valid Credentials", username := "testuser",
      password := "correctpassword", expected_result := "success" },
    { name := "Invalid Username", username := "wronguser",
      password := "correctpassword", expected_result := "failure" },
    { name := "Invalid Password", username := "testuser",
      password := "wrongpassword", expected_result := "failure" },
    { name := "Empty Credentials", username := "",
      password := "", expected_result := "failure" } ]

/-- Embedding of test_login_scenarios: the batch over the four hardcoded
scenarios. -/
def test_login_scenarios (env : BrowserEnv) :
    List ScenarioResult × Except EmptyRunError Report :=
  run_login_scenarios env default_test_cases

/-- A page on which every lookup comes back empty. -/
def empty_page : PageEnv :=
  { css_lookup := fun _ => none, id_lookup := fun _ => none, name_lookup := fun _ => none }

/-- A browser state whose navigation step fails, so every scenario run against
it errors at the first step. -/
def err_env : BrowserEnv :=
  { nav_error := some "net down", page := empty_page, interact_error := none,
    current_url := "", page_source := "" }

/-- Four concrete results with statuses PASS, PASS, FAIL, ERROR. -/
def sample_results : List ScenarioResult :=
  [ { test_case := "a", username := "u1", expected := "success", actual := "success",
      status := "PASS", error := none },
    { test_case := "b", username := "u2", expected := "failure", actual := "failure",
      status := "PASS", error := none },
    { test_case := "c", username := "u3", expected := "success", actual := "failure",
      status := "FAIL", error := none },
    { test_case := "d", username := "u4", expected := "failure", actual := "error",
      status := "ERROR", error := some "boom" } ]

/-- Folding the per-hint extension over a hint list appends the concatenation
of the per-hint selector blocks to the accumulator. -/
lemma foldl_selectors (e : String) (attrs : List String) (acc : List String) :
    attrs.foldl (fun selectors attr => selectors ++ selectors_for_hint e attr) acc
      = acc ++ attrs.flatMap (selectors_for_hint e) := by
  induction attrs generalizing acc with
  | nil => simp
  | cons a t ih => simp [List.foldl_cons, ih, List.append_assoc]

/-- The generator is the concatenation of the five-selector blocks, one block
per hint in hint order. -/
lemma generate_eq (e : String) (attrs : List String) :
    generate_possible_selectors e attrs = attrs.flatMap (selectors_for_hint e) := by
  simpa [generate_possible_selectors] using foldl_selectors e attrs []

/-- The generator emits exactly five selectors per hint. -/
lemma generate_length (e : String) (attrs : List String) :
    (generate_possible_selectors e attrs).length = 5 * attrs.length := by
  rw [generate_eq]
  induction attrs with
  | nil => simp
  | cons a t ih =>
    simp only [List.flatMap_cons, List.length_append, ih, selectors_for_hint,
      List.length_cons, List.length_nil]
    ring

/-- The probe trace of the candidate scan is a prefix of the candidate list. -/
lemma scan_trace_prefix (env : PageEnv) (sels : List String) :
    ∃ k, (scan_with_trace env sels).1 = sels.take k := by
  induction sels with
  | nil => exact ⟨0, rfl⟩
  | cons s rest ih =>
    cases h : env.css_lookup s with
    | some e => exact ⟨1, by simp [scan_with_trace, h]⟩
    | none =>
      obtain ⟨k, hk⟩ := ih
      exact ⟨k + 1, by simp [scan_with_trace, h, hk]⟩

/-- When every candidate misses, the scan probes the whole list and finds
nothing. -/
lemma scan_all_none (env : PageEnv) (sels : List String)
    (h : ∀ s ∈ sels, env.css_lookup s = none) :
    scan_with_trace env sels = (sels, none) := by
  induction sels with
  | nil => rfl
  | cons s rest ih =>
    have hs : env.css_lookup s = none := h s (by simp)
    have ht := ih fun x hx => h x (by simp [hx])
    simp [scan_with_trace, hs, ht]

/-- The indicator loop computes an existential check over the indicator
list. -/
lemma indicator_hit_eq_any (inds : List String) (u s : String) :
    indicator_hit inds u s = inds.any fun k => contains_sub u k || contains_sub s k := by
  induction inds with
  | nil => rfl
  | cons a t ih =>
    unfold indicator_hit
    cases hca : contains_sub u a || contains_sub s a with
    | true => simp [hca]
    | false => simp [hca, ih]

/-- The indicator loop succeeds exactly when some indicator occurs in the
lowered URL or in the lowered page source. -/
lemma indicator_hit_true_iff (inds : List String) (u s : String) :
    indicator_hit inds u s = true ↔
      ∃ k ∈ inds, contains_sub u k = true ∨ contains_sub s k = true := by
  rw [indicator_hit_eq_any, List.any_eq_true]
  simp

/-- The indicator loop fails exactly when no indicator occurs in either
input. -/
lemma indicator_hit_false_iff (inds : List String) (u s : String) :
    indicator_hit inds u s = false ↔
      ∀ k ∈ inds, contains_sub u k = false ∧ contains_sub s k = false := by
  rw [indicator_hit_eq_any, List.any_eq_false]
  simp

/-- A success keyword occurring in either lowered input makes the configured
classifier answer success. -/
lemma classify_success (sk fk : List String) (url content : String)
    (h : ∃ k ∈ sk, contains_sub (to_lower url) k = true
        ∨ contains_sub (to_lower content) k = true) :
    classify_with_keywords sk fk url content = "success" := by
  have hs : indicator_hit sk (to_lower url) (to_lower content) = true :=
    (indicator_hit_true_iff sk (to_lower url) (to_lower content)).mpr h
  simp [classify_with_keywords, hs]

/-- With no success keyword occurring, the configured classifier answers
failure, whether or not a failure keyword occurs. -/
lemma classify_no_success (sk fk : List String) (url content : String)
    (h : ∀ k ∈ sk, contains_sub (to_lower url) k = false
        ∧ contains_sub (to_lower content) k = false) :
    classify_with_keywords sk fk url content = "failure" := by
  have hs : indicator_hit sk (to_lower url) (to_lower content) = false :=
    (indicator_hit_false_iff sk (to_lower url) (to_lower content)).mpr h
  by_cases hf : indicator_hit fk (to_lower url) (to_lower content) = true
  · simp [classify_with_keywords, hs, hf]
  · simp [classify_with_keywords, hs, hf]

/-- Aggregation over a nonempty result list succeeds with the counts and rate
computed by the report body. -/
lemma generate_test_report_ok (rs : List ScenarioResult) (h : rs ≠ []) :
    generate_test_report rs = Except.ok
      { total := rs.length,
        passed := (rs.filter fun r => r.status == "PASS").length,
        failed := (rs.filter fun r => r.status == "FAIL").length,
        errored := (rs.filter fun r => r.status == "ERROR").length,
        success_rate :=
          ((rs.filter fun r => r.status == "PASS").length : ℚ) / (rs.length : ℚ) * 100 } := by
  unfold generate_test_report
  rw [if_neg (by simpa [List.length_eq_zero] using h)]

/-- Claim C1, counterexample: for the two hints id and name the generator
returns ten selectors, not the claimed 3 times 2 plus 2 = 8, because the
id-style and class-style fallbacks are emitted for every hint rather than once
at the end. -/
theorem selector_count_counterexample :
    (generate_possible_selectors "username" ["id", "name"]).length ≠ 3 * 2 + 2 := by
  decide

/-- Claim C1, amended: for every role and every hint list the generator emits,
per hint in hint order, a substring-match selector, an exact-match selector, a
tag-qualified substring selector, an id-style selector and a class-style
selector built from the role name — the two generic fallbacks recur inside
every per-hint block instead of being appended once — so the sequence has
5 times the number of hints entries. -/
theorem generate_selectors_per_hint_structure (element_type : String)
    (attributes : List String) :
    generate_possible_selectors element_type attributes
        = attributes.flatMap (selectors_for_hint element_type) ∧
    (generate_possible_selectors element_type attributes).length = 5 * attributes.length :=
  ⟨generate_eq element_type attributes, generate_length element_type attributes⟩

/-- Claim C9: with an empty hint list the generator returns the empty candidate
sequence, resolution probes no CSS candidate, and the outcome is decided
entirely by the two direct id and name fallback lookups on the role name. -/
theorem empty_hints_no_candidates (env : PageEnv) (element_type : String) :
    generate_possible_selectors element_type [] = [] ∧
    (resolve_element env element_type []).1 = [] ∧
    (resolve_element env element_type []).2
      = (match env.id_lookup element_type with
         | some e => Except.ok e
         | none =>
           match env.name_lookup element_type with
           | some e => Except.ok e
           | none => Except.error ("Could not locate " ++ element_type ++ " element")) :=
  ⟨rfl, rfl, rfl⟩

/-- Claim C8, counterexample: the keyword sets are not caller-supplied
configuration — a caller configuring no success keywords and dashboard as a
failure keyword would classify a dashboard URL as failure, yet the code
classifies it as success, since its keyword sets are embedded constants. -/
theorem classifier_sets_not_injected :
    determine_login_result "https://app.example.com/dashboard" "" = "success" ∧
    classify_with_keywords [] ["dashboard"] "https://app.example.com/dashboard" "" = "failure" := by
  exact ⟨by decide, by decide⟩

/-- Claim C8, amended: the classifier takes no keyword configuration; its
keyword sets are the embedded constants dashboard, welcome, success, home and
error, invalid, failure, login, and for every URL and page content its answer
coincides with the configured classifier applied to exactly those constant
sets. -/
theorem classifier_embedded_constant_sets (current_url page_source : String) :
    determine_login_result current_url page_source
      = classify_with_keywords ["dashboard", "welcome", "success", "home"]
          ["error", "invalid", "failure", "login"] current_url page_source := rfl

/-- Claim C3: the classifier lowers the URL and the page source and decides by
keyword membership — some success keyword occurring in either input gives
success; with no success keyword occurring, the answer is failure both when a
failure keyword occurs and when nothing occurs (fail-safe default); at the
embedded constant sets, a dashboard URL classifies as success, an
invalid-credentials page with no success keyword as failure, and a page
matching nothing as failure. -/
theorem classifier_keyword_decision :
    (∀ sk fk url content, (∃ k ∈ sk, contains_sub (to_lower url) k = true
        ∨ contains_sub (to_lower content) k = true) →
      classify_with_keywords sk fk url content = "success") ∧
    (∀ sk fk url content,
      (∀ k ∈ sk, contains_sub (to_lower url) k = false
          ∧ contains_sub (to_lower content) k = false) →
      (∃ k ∈ fk, contains_sub (to_lower url) k = true
          ∨ contains_sub (to_lower content) k = true) →
      classify_with_keywords sk fk url content = "failure") ∧
    (∀ sk fk url content,
      (∀ k ∈ sk, contains_sub (to_lower url) k = false
          ∧ contains_sub (to_lower content) k = false) →
      (∀ k ∈ fk, contains_sub (to_lower url) k = false
          ∧ contains_sub (to_lower content) k = false) →
      classify_with_keywords sk fk url content = "failure") ∧
    determine_login_result "https://app.example.com/dashboard" "" = "success" ∧
    determine_login_result "https://app.example.com/auth" "Invalid credentials." = "failure" ∧
    determine_login_result "https://app.example.com/auth" "nothing to see" = "failure" := by
  refine ⟨?_, ?_, ?_, by decide, by decide, by decide⟩
  · intro sk fk url content h
    exact classify_success sk fk url content h
  · intro sk fk url content hs _
    exact classify_no_success sk fk url content hs
  · intro sk fk url content hs _
    exact classify_no_success sk fk url content hs

/-- Claim C3, witness: the three decision branches realized at concrete keyword
sets and inputs. -/
theorem classifier_keyword_decision_witness :
    classify_with_keywords ["dash"] ["bad"] "site/Dash" "" = "success" ∧
    classify_with_keywords ["dash"] ["bad"] "site/other" "Bad news" = "failure" ∧
    classify_with_keywords ["dash"] ["bad"] "site/other" "quiet" = "failure" :=
  ⟨classifier_keyword_decision.1 ["dash"] ["bad"] "site/Dash" ""
      ⟨"dash", by decide, Or.inl (by decide)⟩,
   classifier_keyword_decision.2.1 ["dash"] ["bad"] "site/other" "Bad news"
      (by decide) ⟨"bad", by decide, Or.inr (by decide)⟩,
   classifier_keyword_decision.2.2.1 ["dash"] ["bad"] "site/other" "quiet"
      (by decide) (by decide)⟩

/-- Claim C10: keyword matching is substring containment on the lowered inputs,
not whole-word matching, and success keywords are checked before failure
keywords: whenever a success keyword occurs as a substring of the lowered URL
or page source the code answers success even when failure keywords also occur;
in particular a login URL with a page source saying Login unsuccessful, where
success occurs only inside the word unsuccessful and the failure keywords login
and invalid also occur, classifies as success. -/
theorem substring_match_success_priority :
    (∀ url content, (∃ k ∈ ["dashboard", "welcome", "success", "home"],
        contains_sub (to_lower url) k = true ∨ contains_sub (to_lower content) k = true) →
      determine_login_result url content = "success") ∧
    determine_login_result "https://example.com/login"
        "Login unsuccessful - invalid credentials." = "success" := by
  refine ⟨?_, by decide⟩
  intro url content h
  exact classify_success ["dashboard", "welcome", "success", "home"]
    ["error", "invalid", "failure", "login"] url content h

/-- Claim C10, witness: a page source containing success only inside the word
unsuccessful classifies as success. -/
theorem substring_match_success_priority_witness :
    determine_login_result "" "Totally Unsuccessful" = "success" :=
  substring_match_success_priority.1 "" "Totally Unsuccessful"
    ⟨"success", by decide, Or.inr (by decide)⟩

/-- Claim C2: for every browser state and scenario, the produced result has
status PASS exactly when the classified outcome equals the expected one and no
error was recorded; status ERROR exactly when an error was recorded, in which
case the actual entry is the sentinel error value and never success nor
failure. -/
theorem scenario_status_invariant (env : BrowserEnv) (tc : TestCase) :
    ((execute_login_test env tc).status = "PASS" ↔
      ((execute_login_test env tc).actual = (execute_login_test env tc).expected ∧
       (execute_login_test env tc).error = none)) ∧
    ((execute_login_test env tc).status = "ERROR" ↔
      (execute_login_test env tc).error ≠ none) ∧
    ((execute_login_test env tc).status = "ERROR" →
      (execute_login_test env tc).actual = "error" ∧
      (execute_login_test env tc).actual ≠ "success" ∧
      (execute_login_test env tc).actual ≠ "failure") := by
  cases hrun : run_login_steps env with
  | ok a =>
    by_cases hc : a = tc.expected_result
    · simp [execute_login_test, hrun, hc]
    · simp [execute_login_test, hrun, hc]
  | error m => simp [execute_login_test, hrun]

/-- Claim C2, witness: a navigation failure yields the ERROR status and the
sentinel actual value. -/
theorem scenario_status_invariant_witness :
    (execute_login_test err_env
        { name := "t", username := "u", password := "p", expected_result := "success" }).status
      = "ERROR" ∧
    (execute_login_test err_env
        { name := "t", username := "u", password := "p", expected_result := "success" }).actual
      = "error" := by
  have h := scenario_status_invariant err_env
    { name := "t", username := "u", password := "p", expected_result := "success" }
  exact ⟨h.2.1.mpr (by decide), (h.2.2 (h.2.1.mpr (by decide))).1⟩

/-- Claim C6: the candidate scan is a single linear pass with early exit — the
probe trace is always a prefix of the candidate list — and when every generated
candidate misses, every candidate is probed exactly once in order and the
outcome is decided by exactly two fallbacks in order, the direct id lookup and
then the direct name lookup on the role name; when both miss, resolution fails
with the could-not-locate error carrying the role. -/
theorem resolver_fallback_order (env : PageEnv) (element_type : String)
    (attributes : List String) :
    (∃ k, (resolve_element env element_type attributes).1
        = (generate_possible_selectors element_type attributes).take k) ∧
    ((∀ s ∈ generate_possible_selectors element_type attributes, env.css_lookup s = none) →
      (resolve_element env element_type attributes).1
          = generate_possible_selectors element_type attributes ∧
      (resolve_element env element_type attributes).2
        = (match env.id_lookup element_type with
           | some e => Except.ok e
           | none =>
             match env.name_lookup element_type with
             | some e => Except.ok e
             | none => Except.error ("Could not locate " ++ element_type ++ " element"))) := by
  constructor
  · obtain ⟨k, hk⟩ := scan_trace_prefix env (generate_possible_selectors element_type attributes)
    exact ⟨k, by simpa [resolve_element] using hk⟩
  · intro hall
    have hscan := scan_all_none env (generate_possible_selectors element_type attributes) hall
    constructor
    · simp [resolve_element, hscan]
    · simp [resolve_element, hscan]

/-- Claim C6, witness: on a page where nothing matches, every generated
candidate for the login role is probed and resolution fails with the
could-not-locate error carrying the role. -/
theorem resolver_fallback_order_witness :
    (resolve_element empty_page "login" ["id", "class"]).1
        = generate_possible_selectors "login" ["id", "class"] ∧
    (resolve_element empty_page "login" ["id", "class"]).2
        = Except.error "Could not locate login element" := by
  have h := (resolver_fallback_order empty_page "login" ["id", "class"]).2
    (by intro s _; rfl)
  exact ⟨h.1, by rw [h.2]; rfl⟩

/-- Claim C4: aggregation over the empty result sequence fails with the
empty-run error, which is returned to the caller rather than silently
defaulted, while over every nonempty sequence it succeeds. -/
theorem report_empty_run_error :
    generate_test_report ([] : List ScenarioResult) = Except.error EmptyRunError.emptyRun ∧
    ∀ rs : List ScenarioResult, rs ≠ [] → ∃ rep, generate_test_report rs = Except.ok rep := by
  refine ⟨rfl, ?_⟩
  intro rs h
  exact ⟨_, generate_test_report_ok rs h⟩

/-- Claim C4, witness: aggregation succeeds on a concrete four-result
sequence. -/
theorem report_empty_run_error_witness :
    ∃ rep, generate_test_report sample_results = Except.ok rep :=
  report_empty_run_error.2 sample_results (by decide)

/-- Claim C7: aggregation over any nonempty result sequence counts every input
— the total is the input length, with the per-status counts — and the success
rate is passed over total times one hundred; over the concrete PASS, PASS,
FAIL, ERROR sequence it yields total 4, passed 2, failed 1, errored 1 and a
success rate of 50, displayed as 50.0 after one-decimal rounding. -/
theorem report_aggregation_counts :
    (∀ rs : List ScenarioResult, rs ≠ [] →
      ∃ rep : Report, generate_test_report rs = Except.ok rep ∧
        rep.total = rs.length ∧
        rep.passed = rs.countP (fun r => r.status == "PASS") ∧
        rep.failed = rs.countP (fun r => r.status == "FAIL") ∧
        rep.errored = rs.countP (fun r => r.status == "ERROR") ∧
        rep.success_rate = (rep.passed : ℚ) / (rep.total : ℚ) * 100) ∧
    (∃ rep : Report, generate_test_report sample_results = Except.ok rep ∧
      rep.total = 4 ∧ rep.passed = 2 ∧ rep.failed = 1 ∧ rep.errored = 1 ∧
      rep.success_rate = 50 ∧ display_rate rep.success_rate = 50) := by
  constructor
  · intro rs h
    refine ⟨_, generate_test_report_ok rs h, rfl, ?_, ?_, ?_, rfl⟩
    · exact (List.countP_eq_length_filter _ rs).symm
    · exact (List.countP_eq_length_filter _ rs).symm
    · exact (List.countP_eq_length_filter _ rs).symm
  · refine ⟨_, generate_test_report_ok sample_results (by decide),
      by decide, by decide, by decide, by decide, ?_, ?_⟩
    · show ((sample_results.filter fun r => r.status == "PASS").length : ℚ)
          / (sample_results.length : ℚ) * 100 = 50
      norm_num [show (sample_results.filter fun r => r.status == "PASS").length = 2 from by decide,
        show sample_results.length = 4 from by decide]
    · show display_rate (((sample_results.filter fun r => r.status == "PASS").length : ℚ)
          / (sample_results.length : ℚ) * 100) = 50
      norm_num [display_rate,
        show (sample_results.filter fun r => r.status == "PASS").length = 2 from by decide,
        show sample_results.length = 4 from by decide]

/-- Claim C7, witness: the aggregation equations realized on the concrete
four-result sequence. -/
theorem report_aggregation_counts_witness :
    ∃ rep : Report, generate_test_report sample_results = Except.ok rep ∧
      rep.total = sample_results.length ∧
      rep.passed = sample_results.countP (fun r => r.status == "PASS") ∧
      rep.failed = sample_results.countP (fun r => r.status == "FAIL") ∧
      rep.errored = sample_results.countP (fun r => r.status == "ERROR") ∧
      rep.success_rate = (rep.passed : ℚ) / (rep.total : ℚ) * 100 :=
  report_aggregation_counts.1 sample_results (by decide)

/-- Claim C5, counterexample: over the empty scenario sequence the batch yields
no report — aggregation fails with the empty-run error — refuting that a batch
over any scenario sequence yields a report. -/
theorem batch_empty_no_report :
    (run_login_scenarios err_env []).2 = Except.error EmptyRunError.emptyRun := rfl

/-- Claim C5, amended: every error at any step of a scenario is contained at
the scenario boundary as an ERROR result — the batch always completes with
exactly one result per scenario, in order, even when every scenario errors —
and over every nonempty scenario sequence it also yields a report counting all
results; over the empty sequence report aggregation fails with the empty-run
error. -/
theorem batch_isolation_and_report (env : BrowserEnv) (tcs : List TestCase) :
    (run_login_scenarios env tcs).1.length = tcs.length ∧
    (∀ i : Nat, (run_login_scenarios env tcs).1[i]?
        = (tcs[i]?).map (execute_login_test env)) ∧
    (env.nav_error ≠ none → ∀ r ∈ (run_login_scenarios env tcs).1,
        r.status = "ERROR" ∧ r.error ≠ none) ∧
    (tcs ≠ [] → ∃ rep, (run_login_scenarios env tcs).2 = Except.ok rep
        ∧ rep.total = tcs.length) := by
  refine ⟨by simp [run_login_scenarios], ?_, ?_, ?_⟩
  · intro i
    simp [run_login_scenarios, List.getElem?_map]
  · intro hnav r hr
    simp only [run_login_scenarios, List.mem_map] at hr
    obtain ⟨tc, _, rfl⟩ := hr
    cases hn : env.nav_error with
    | none => exact absurd hn hnav
    | some m => simp [execute_login_test, run_login_steps, hn]
  · intro h
    have hne : tcs.map (execute_login_test env) ≠ [] := fun hmap => h (by simpa using hmap)
    have hrep := generate_test_report_ok (tcs.map (execute_login_test env)) hne
    exact ⟨_, hrep, by simp⟩

/-- Claim C5, witness: with failing navigation every one of the four default
scenarios yields an ERROR result and the batch still yields a report counting
all four. -/
theorem batch_isolation_and_report_witness :
    (∀ r ∈ (run_login_scenarios err_env default_test_cases).1,
        r.status = "ERROR" ∧ r.error ≠ none) ∧
    ∃ rep, (run_login_scenarios err_env default_test_cases).2 = Except.ok rep
        ∧ rep.total = 4 := by
  have h := batch_isolation_and_report err_env default_test_cases
  refine ⟨h.2.2.1 (by decide), ?_⟩
  obtain ⟨rep, hrep, htot⟩ := h.2.2.2 (by decide)
  exact ⟨rep, hrep, by rw [htot]; rfl⟩

end AutoTest
